import Mathlib

/-!
Shallow embedding of `src/class/simplecontroller.js` (class `SimpleController`
of the HOSIT repository) and proofs about the claims C1..C10.

Modelling conventions:
* JavaScript `null` and `undefined` are both embedded as `Option.none`; a
  field that the constructor never assigns stays `none` until some method
  assigns it.
* An `async` method that can throw is embedded as a function returning
  `Except JsErr _`; the `Except.error` case is the thrown exception.
* The observable actions a method dispatches to the browser driver are
  returned as a `List Effect`, so that theorems can speak about which frame
  or element an operation acted on.
* `Functions.*` helpers live in `src/include/functions.js`, which is not part
  of the sources; the few that claims depend on are modelled from the spec
  and marked as such in their doc comments.
* Pages are embedded by their observable content: the frame tree, the set of
  selectors that resolve to an element, the content frame of each element
  that has one, and the set of elements whose click dispatch fails (for
  example because the node detached mid-click).  The `epoch` field is the
  navigation counter of the spec's data model: it advances on navigation and
  lets theorems express that a stored frame is stale.
-/

namespace HOSIT

/-- Errors that can arise in the embedded fragment: JavaScript runtime errors
(`typeError`, `referenceError`) and the error taxonomy of the spec
(`elementNotFound`, `frameNotResolved`, `initializationError`) plus generic
driver failures. -/
inductive JsErr where
  | typeError : String → JsErr
  | referenceError : String → JsErr
  | elementNotFound : JsErr
  | frameNotResolved : JsErr
  | initializationError : JsErr
  | driverError : String → JsErr
deriving DecidableEq, Repr

/-- JavaScript values returned by the embedded methods where the distinction
between `undefined` and a boolean matters. -/
inductive JsVal where
  | undef : JsVal
  | bool : Bool → JsVal
deriving DecidableEq, Repr

/-- An embedded document context (iframe): its URL, the page-navigation epoch
at which it was resolved, and the selectors that resolve to an element inside
it. -/
structure Frame where
  url : String
  epoch : Nat
  elements : List String
deriving DecidableEq, Repr

/-- A page tab: its frame tree, the selectors that resolve to an element, the
content frame of each element that has one, the selectors whose click dispatch
fails (element detached mid-click), and the navigation epoch. -/
structure Page where
  frames : List Frame
  elements : List String
  contentFrames : List (String × Frame)
  clickFails : List String
  epoch : Nat
deriving DecidableEq, Repr

/-- Observable driver actions dispatched by the controller's methods. -/
inductive Effect where
  | clickOn : Frame → String → Effect
  | typeOn : Frame → String → String → Effect
  | selectOn : Frame → String → String → Effect
  | pageClick : String → Effect
deriving DecidableEq, Repr

/-- `frame.$(selector)`: element lookup inside a frame; resolves to an element
handle (embedded as the selector) or to `null`. -/
def Frame.query (f : Frame) (selector : String) : Option String :=
  if selector ∈ f.elements then some selector else none

/-- The fields of a `SimpleController` instance.  The constructor (line 18)
assigns `_identity`, `_endpoint`, `_page` and `_browser`; `_frame` and
`_pages` are first assigned by `init`; `_iframe` is read by `solveRecaptcha`
(line 523) but assigned nowhere in the class. -/
structure SimpleController where
  _identity : String
  _endpoint : Option String
  _page : Option Page
  _browser : Option Unit
  _frame : Option Frame
  _pages : List Page
  _iframe : Option Frame
deriving DecidableEq, Repr

/-- `new SimpleController(identity, endpoint)` (lines 18-30): stores the
identity and endpoint, sets `_page` and `_browser` to null; the remaining
fields stay undefined. -/
def SimpleController.new (identity : String) (endpoint : Option String := none) :
    SimpleController :=
  { _identity := identity
    _endpoint := endpoint
    _page := none
    _browser := none
    _frame := none
    _pages := []
    _iframe := none }

/-! ## Module loading (claim C2)

Line 527 of `simplecontroller.js` reads `module.exports = Controller;`.
The module scope binds `Functions` (line 1), `Puppeteer` (line 2) and the
class `SimpleController` (line 9); no binding named `Controller` exists, so
evaluating the identifier on line 527 follows JavaScript's rule for unbound
identifiers. -/

/-- The names bound in the module scope of `simplecontroller.js` when the
final statement (line 527) executes: the two `require` results and the class
declaration. -/
def moduleScopeNames : List String := ["Functions", "Puppeteer", "SimpleController"]

/-- Evaluating an identifier at module scope: the name itself when bound, a
`ReferenceError` when unbound. -/
def evalModuleIdent (name : String) : Except JsErr String :=
  if name ∈ moduleScopeNames then Except.ok name else
    Except.error (JsErr.referenceError name)

/-- The value assigned to `module.exports` on line 527: the result of
evaluating the identifier `Controller`. -/
def moduleExportsValue : Except JsErr String := evalModuleIdent "Controller"

/-! ## Argument forwarding of the scroll methods (claim C3) -/

/-- A positional argument in a JavaScript call. -/
inductive Arg where
  | page : Arg
  | str : String → Arg
  | bool : Bool → Arg
  | num : Nat → Arg
deriving DecidableEq, Repr

/-- The argument list `scrollDown` passes to `Functions.scrollDown`
(line 386): `(this._page, wait, press, minScrolls, maxScrolls,
minIterations)`. -/
def scrollDownForwardedArgs (_stopSelector : String) (wait press : Bool)
    (minScrolls maxScrolls minIterations : Nat) : List Arg :=
  [Arg.page, Arg.bool wait, Arg.bool press, Arg.num minScrolls,
   Arg.num maxScrolls, Arg.num minIterations]

/-- The argument list `scrollUp` passes to `Functions.scrollUp` (line 368):
`(this._page, stopSelector, wait, press, minScrolls, maxScrolls)`. -/
def scrollUpForwardedArgs (stopSelector : String) (wait press : Bool)
    (minScrolls maxScrolls : Nat) : List Arg :=
  [Arg.page, Arg.str stopSelector, Arg.bool wait, Arg.bool press,
   Arg.num minScrolls, Arg.num maxScrolls]

/-! ## The `type` method (claim C4)

Lines 106-108:
  async type(selector = "", text) { await this.type(selector, text); }
The body is exactly a call to the method itself with the same arguments.
The embedding bounds the recursion depth by fuel; `none` means the call has
not returned within the given depth. -/

/-- Fuel-bounded evaluation of `SimpleController.type` (line 106).  Each
unit of fuel permits one call frame; the body's only action is the self-call
`this.type(selector, text)`. -/
def typeEval : Nat → String → String → Option Unit
  | 0, _, _ => none
  | n + 1, selector, text => typeEval n selector text

/-! ## Spec-modelled `Functions` helpers

`src/include/functions.js` is required on line 1 but is not among the
sources; the helpers below are modelled from the spec. -/

/-- Modelled from the spec: `Functions.init` is missing from src/ (only its
caller `init` is present).  Per the spec it launches or attaches to a browser
instance and opens one page, returning the page and the browser; it fails
with `InitializationError` if the driver cannot be launched or attached.  The
driver's reachability is embedded as the argument: `some p` means the driver
came up and opened page `p`, `none` means it could not be launched. -/
def Functions.init (_endpoint : Option String) (_execPath : String)
    (driver : Option Page) : Except JsErr (Page × Unit) :=
  match driver with
  | some p => Except.ok (p, ())
  | none => Except.error JsErr.initializationError

/-- Modelled from the spec: `Functions.getFrame` is missing from src/ (only
its caller `focusFrame` is present).  Per the spec it scans the current
page's frame tree for a frame whose URL starts with the given URL start and
returns it, or null when none matches. -/
def Functions.getFrame (p : Page) (url : String) : Option Frame :=
  p.frames.find? (fun f => url.isPrefixOf f.url)

/-- Modelled from the spec: `Functions.waitForSelector` is missing from src/
(only its caller is present).  Per the spec it polls for element presence up
to a bounded timeout; when the element appears it yields true; on timeout it
throws `ElementNotFoundError` when `doThrow` is true and yields false
otherwise. -/
def Functions.waitForSelector (p : Page) (selector : String) (doThrow : Bool) :
    Except JsErr Bool :=
  if selector ∈ p.elements then Except.ok true
  else if doThrow then Except.error JsErr.elementNotFound
  else Except.ok false

/-! ## Controller methods -/

/-- `init` (lines 46-55): calls `Functions.init` and, when it returns, stores
the returned page as `_page`, sets `_frame` to null, sets `_pages` to the
one-element list holding the returned page, and stores the browser.  If
`Functions.init` throws, no field is assigned. -/
def SimpleController.init (c : SimpleController) (driver : Option Page)
    (execPath : String := "") : Except JsErr SimpleController :=
  match Functions.init c._endpoint execPath driver with
  | Except.error e => Except.error e
  | Except.ok (page, browser) =>
      Except.ok { c with
        _page := some page
        _frame := none
        _pages := [page]
        _browser := some browser }

/-- `focusFrame` (lines 67-79): searches the current page for a frame whose
URL starts with `url` via `Functions.getFrame`; if found, stores it in
`_frame` and returns true, otherwise returns false.  Dereferencing a null
`_page` inside `Functions.getFrame` is a `TypeError`. -/
def SimpleController.focusFrame (c : SimpleController) (url : String) :
    Except JsErr (Bool × SimpleController) :=
  match c._page with
  | none => Except.error (JsErr.typeError "Cannot read properties of null")
  | some p =>
      match Functions.getFrame p url with
      | some frame => Except.ok (true, { c with _frame := some frame })
      | none => Except.ok (false, c)

/-- `focusFrameSelector` (lines 84-92): resolves `selector` on the page; if
no element matches, returns false; otherwise assigns the element's content
frame (possibly null) to `_frame` and returns whether it is non-null. -/
def SimpleController.focusFrameSelector (c : SimpleController)
    (selector : String) : Except JsErr (Bool × SimpleController) :=
  match c._page with
  | none => Except.error (JsErr.typeError "Cannot read properties of null")
  | some p =>
      if selector ∈ p.elements then
        let fr := p.contentFrames.lookup selector
        Except.ok (fr.isSome, { c with _frame := fr })
      else
        Except.ok (false, c)

/-- `this._page.click(selector)` (driver primitive used on line 174): throws
when the element's click dispatch fails (node detached mid-click) or when no
element matches; otherwise dispatches a page-level click. -/
def Page.click (p : Page) (selector : String) : Except JsErr (List Effect) :=
  if selector ∈ p.clickFails then
    Except.error (JsErr.driverError "Node is detached from document")
  else if selector ∈ p.elements then
    Except.ok [Effect.pageClick selector]
  else
    Except.error JsErr.elementNotFound

/-- `click` (lines 173-175): the body is exactly
`await this._page.click(selector);` — the parameters `delay`, `tap`,
`topRight` and `doTrigger` are accepted but never read. -/
def SimpleController.click (c : SimpleController) (selector : String)
    (_delay : Bool := true) (_tap : Bool := false) (_topRight : Bool := false)
    (_doTrigger : Bool := false) : Except JsErr (List Effect) :=
  match c._page with
  | none => Except.error (JsErr.typeError "Cannot read properties of null")
  | some p => p.click selector

/-- `typeFrame` (lines 122-126): `this._frame.$(selector)` on a null frame is
a `TypeError`; `element.click()` on a null element is a `TypeError`;
otherwise a click and then the typing are dispatched against the stored
frame, whatever its epoch. -/
def SimpleController.typeFrame (c : SimpleController) (selector text : String) :
    Except JsErr (List Effect) :=
  match c._frame with
  | none => Except.error (JsErr.typeError "Cannot read properties of null")
  | some f =>
      match f.query selector with
      | none => Except.error (JsErr.typeError "Cannot read properties of null")
      | some el => Except.ok [Effect.clickOn f el, Effect.typeOn f el text]

/-- `clickFrame` (lines 203-206): `this._frame.$(selector)` on a null frame
is a `TypeError`; `element.click()` on a null element is a `TypeError`;
otherwise the click is dispatched against the stored frame, whatever its
epoch. -/
def SimpleController.clickFrame (c : SimpleController) (selector : String) :
    Except JsErr (List Effect) :=
  match c._frame with
  | none => Except.error (JsErr.typeError "Cannot read properties of null")
  | some f =>
      match f.query selector with
      | none => Except.error (JsErr.typeError "Cannot read properties of null")
      | some el => Except.ok [Effect.clickOn f el]

/-- `selectFrame` (lines 263-265): `this._frame.select(selector, value)` on a
null frame is a `TypeError`; the driver's select throws when no element
matches; otherwise the selection is dispatched against the stored frame,
whatever its epoch. -/
def SimpleController.selectFrame (c : SimpleController) (selector value : String) :
    Except JsErr (List Effect) :=
  match c._frame with
  | none => Except.error (JsErr.typeError "Cannot read properties of null")
  | some f =>
      if selector ∈ f.elements then Except.ok [Effect.selectOn f selector value]
      else Except.error JsErr.elementNotFound

/-- `waitForSelector` (lines 239-241): the body is
`await Functions.waitForSelector(this._page, selector, doThrow);` — the
awaited boolean is discarded, so the async method resolves to `undefined`;
a thrown error propagates. -/
def SimpleController.waitForSelector (c : SimpleController) (selector : String)
    (doThrow : Bool := false) : Except JsErr JsVal :=
  match c._page with
  | none => Except.error (JsErr.typeError "Cannot read properties of null")
  | some p =>
      match Functions.waitForSelector p selector doThrow with
      | Except.error e => Except.error e
      | Except.ok _ => Except.ok JsVal.undef

/-- The frame argument `solveRecaptcha` (lines 522-524) hands to
`Functions.solveRecaptcha`: the field `this._iframe`. -/
def SimpleController.solveRecaptchaFrameArg (c : SimpleController) :
    Option Frame :=
  c._iframe

/-! ## Promise structure of `clickAndWait` (claim C7)

Lines 188-193: the body is
`await Promise.all([this.click(selector), this.waitForNavigation()]);`.
Both member promises are created before the await, so the two operations are
in flight concurrently, and `Promise.all` resolves only once every member
promise has resolved.  A promise is embedded by its resolution tick on an
abstract clock; `Promise.all` resolves at the maximum member tick. -/

/-- A promise: a named primitive driver operation resolving at a given tick,
or the join of a list of promises. -/
inductive Promise where
  | prim : String → Nat → Promise
  | all : List Promise → Promise

/-- The tick at which a promise resolves: a primitive resolves at its own
tick; `Promise.all` resolves at the maximum tick of its members. -/
def Promise.resolveTick : Promise → Nat
  | Promise.prim _ t => t
  | Promise.all [] => 0
  | Promise.all (p :: ps) => max (Promise.resolveTick p) (Promise.resolveTick (Promise.all ps))

/-- The promise built by the body of `clickAndWait` (lines 189-192), given
the ticks at which the click dispatch and the navigation complete. -/
def clickAndWaitPromise (clickTick navTick : Nat) : Promise :=
  Promise.all [Promise.prim "click" clickTick,
               Promise.prim "waitForNavigation" navTick]

/-! ## The operations of the controller as a step system (claim C10)

One constructor per public method of the class.  Methods that assign a field
(`init`, `focusFrame`, `focusFrameSelector`) step to the state the method
leaves behind (unchanged when the method throws, since in the source every
assignment happens after the point that can throw); navigation (`goto`,
`goBack`, `clickAndWait`, `clickFrameAndWait`, `waitForNavigation`) replaces
the content of the current page object in place; every other method assigns
no field of `this`. -/

/-- One invocation of a public method of `SimpleController`, with the
arguments that can influence the controller's state.  `goto`, `goBack` and
the navigation waits carry the page content after the navigation. -/
inductive Op where
  | init (driver : Option Page) (execPath : String)
  | focusFrame (url : String)
  | focusFrameSelector (selector : String)
  | typeOp (selector text : String)
  | typeFrame (selector text : String)
  | typeEnter
  | typeTab
  | typeEsc
  | click (selector : String) (delay tap topRight doTrigger : Bool)
  | clickAndWait (selector : String) (nav : Page)
  | clickFrame (selector : String)
  | clickFrameAndWait (selector : String) (nav : Page)
  | hover (selector : String)
  | waitForSelector (selector : String) (doThrow : Bool)
  | select (selector value : String)
  | selectFrame (selector value : String)
  | goto (url : String) (nav : Page)
  | randomWait (time random : Nat)
  | waitForNavigation (nav : Page)
  | logScreenshot (text : String) (fullPage : Bool)
  | isSelectorVisible (selector : String)
  | scrollToSelector (stopSelector : String) (wait : Bool)
  | scrollToBottom
  | scrollUp (stopSelector : String) (wait press : Bool) (minScrolls maxScrolls : Nat)
  | scrollDown (stopSelector : String) (wait press : Bool)
      (minScrolls maxScrolls minIterations : Nat)
  | setValue (selector text : String)
  | deactivateLink (selector : String)
  | getHref (selector : String)
  | getRandomTime (time random : Nat)
  | getRandomNumber (hi lo : Nat)
  | getRandomBoolean (truePercent : Nat)
  | goBack (nav : Page)
  | getPage
  | getFrame
  | getIdentity
  | solveCaptcha (selector : String)
  | solveRecaptcha (selector : String)

/-- In-place mutation of the current page object by a navigation: the
controller's fields still reference the same page object, whose content is
now `nav`. -/
def SimpleController.navigate (c : SimpleController) (nav : Page) :
    SimpleController :=
  { c with
    _page := c._page.map fun _ => nav
    _pages := c._pages.map fun _ => nav }

/-- The controller state after one method invocation.  Only `init`,
`focusFrame` and `focusFrameSelector` assign fields of `this`; navigations
mutate the current page object in place; every other method leaves the
controller's fields untouched. -/
def SimpleController.step (c : SimpleController) : Op → SimpleController
  | Op.init driver execPath =>
      match c.init driver execPath with
      | Except.ok c' => c'
      | Except.error _ => c
  | Op.focusFrame url =>
      match c.focusFrame url with
      | Except.ok (_, c') => c'
      | Except.error _ => c
  | Op.focusFrameSelector selector =>
      match c.focusFrameSelector selector with
      | Except.ok (_, c') => c'
      | Except.error _ => c
  | Op.clickAndWait _ nav => c.navigate nav
  | Op.clickFrameAndWait _ nav => c.navigate nav
  | Op.goto _ nav => c.navigate nav
  | Op.waitForNavigation nav => c.navigate nav
  | Op.goBack nav => c.navigate nav
  | _ => c

/-- The controller state after a sequence of method invocations. -/
def SimpleController.run (c : SimpleController) (ops : List Op) :
    SimpleController :=
  ops.foldl SimpleController.step c

deriving instance DecidableEq for Except

/-! ## Concrete fixtures used by counterexamples and witnesses -/

/-- A frame resolved at epoch 0, holding an element `#btn`. -/
def oldFrame : Frame :=
  { url := "https://captcha.example/challenge", epoch := 0, elements := ["#btn"] }

/-- The frame tree member of the page after navigation (epoch 1). -/
def newFrame : Frame :=
  { url := "https://other.example/", epoch := 1, elements := [] }

/-- The page after one navigation: epoch 1, `oldFrame` no longer in the
tree, no elements. -/
def navigatedPage : Page :=
  { frames := [newFrame], elements := [], contentFrames := [],
    clickFails := [], epoch := 1 }

/-- A controller whose stored `_frame` was resolved before the most recent
navigation of its page (frame epoch 0, page epoch 1). -/
def staleController : SimpleController :=
  { SimpleController.new "id" with
    _page := some navigatedPage
    _pages := [navigatedPage]
    _browser := some ()
    _frame := some oldFrame }

/-- An initialized controller with no focused frame. -/
def noFrameController : SimpleController :=
  { SimpleController.new "id" with
    _page := some navigatedPage
    _pages := [navigatedPage]
    _browser := some ()
    _frame := none }

/-- A page on which the element `#btn` exists but its click dispatch fails
(the node detaches mid-click). -/
def detachingPage : Page :=
  { frames := [], elements := ["#btn"], contentFrames := [],
    clickFails := ["#btn"], epoch := 0 }

/-- An initialized controller on `detachingPage`. -/
def detachController : SimpleController :=
  { SimpleController.new "id" with
    _page := some detachingPage
    _pages := [detachingPage]
    _browser := some () }

/-- A frame whose URL starts with `https://captcha.example`. -/
def challengeFrame : Frame :=
  { url := "https://captcha.example/challenge", epoch := 0, elements := ["#cb"] }

/-- A page whose frame tree holds `challengeFrame`. -/
def framedPage : Page :=
  { frames := [challengeFrame], elements := [], contentFrames := [],
    clickFails := [], epoch := 0 }

/-- An initialized controller on `framedPage`, no focused frame yet. -/
def readyController : SimpleController :=
  { SimpleController.new "id" with
    _page := some framedPage
    _pages := [framedPage]
    _browser := some () }

/-! ## Claim C2 -/

/-- C2: loading the module does not bind the `SimpleController` class as the
export.  Line 527 reads `module.exports = Controller;`, and `Controller` is
bound nowhere in the module scope, so the final export statement raises a
`ReferenceError` and the module fails to load. -/
theorem moduleExports_referenceError :
    moduleExportsValue = Except.error (JsErr.referenceError "Controller") ∧
    moduleExportsValue ≠ Except.ok "SimpleController" := by
  decide

/-! ## Claim C3 -/

/-- C3: for every argument tuple, the stop selector is absent from the
argument list `scrollDown` forwards to `Functions.scrollDown` — the `wait`
flag occupies its position — whereas `scrollUp` does forward its stop
selector in second position. -/
theorem scrollDown_drops_stopSelector (stopSelector : String)
    (wait press : Bool) (minScrolls maxScrolls minIterations : Nat) :
    Arg.str stopSelector ∉
      scrollDownForwardedArgs stopSelector wait press minScrolls maxScrolls
        minIterations ∧
    (scrollDownForwardedArgs stopSelector wait press minScrolls maxScrolls
        minIterations)[1]? = some (Arg.bool wait) ∧
    Arg.str stopSelector ∈
      scrollUpForwardedArgs stopSelector wait press minScrolls maxScrolls := by
  simp [scrollDownForwardedArgs, scrollUpForwardedArgs]

/-! ## Claim C4 -/

/-- C4: `type(selector, text)` never returns: its body is the self-call
`await this.type(selector, text)`, so at every finite call depth, for every
selector and text, the call has not produced a result. -/
theorem type_never_returns (fuel : Nat) (selector text : String) :
    typeEval fuel selector text = none := by
  induction fuel with
  | zero => rfl
  | succ n ih => exact ih

/-! ## Claim C5 -/

/-- C5: `doTrigger` is never read by `click`: the result is independent of
its value, and at the failing input — an element whose click dispatch fails
because the node detached mid-click, with `doTrigger = true` — the dispatch
error propagates to the caller rather than being downgraded into a
script-triggered fallback click. -/
theorem click_ignores_doTrigger :
    (∀ (c : SimpleController) (selector : String) (d t r : Bool),
      SimpleController.click c selector d t r true =
        SimpleController.click c selector d t r false) ∧
    detachController.click "#btn" true false false true =
      Except.error (JsErr.driverError "Node is detached from document") := by
  exact ⟨fun c selector d t r => rfl, by decide⟩

/-! ## Claim C7 -/

/-- C7: `clickAndWait` awaits the `Promise.all` of the click promise and the
navigation promise, both created before the await; the joint promise
resolves exactly at the later of the two resolution ticks, hence never
before the navigation completes and never before the click dispatch
completes. -/
theorem clickAndWait_resolves_after_both (clickTick navTick : Nat) :
    clickTick ≤ (clickAndWaitPromise clickTick navTick).resolveTick ∧
    navTick ≤ (clickAndWaitPromise clickTick navTick).resolveTick ∧
    (clickAndWaitPromise clickTick navTick).resolveTick =
      max clickTick navTick := by
  refine ⟨?_, ?_, ?_⟩ <;> simp [clickAndWaitPromise, Promise.resolveTick]

/-! ## Claim C1 -/

/-- C1 counterexample: with a focused frame resolved at epoch 0 while the
page is at epoch 1 (stale handle), `clickFrame` succeeds and dispatches the
click on the old frame instead of failing with `FrameNotResolvedError`; and
with no focused frame, `typeFrame` fails with a `TypeError`, not with
`FrameNotResolvedError`. -/
theorem frameOps_cx :
    staleController._frame = some oldFrame ∧
    staleController._page = some navigatedPage ∧
    navigatedPage.epoch ≠ oldFrame.epoch ∧
    staleController.clickFrame "#btn" =
      Except.ok [Effect.clickOn oldFrame "#btn"] ∧
    staleController.clickFrame "#btn" ≠
      Except.error JsErr.frameNotResolved ∧
    noFrameController._frame = none ∧
    noFrameController.typeFrame "#btn" "hi" =
      Except.error (JsErr.typeError "Cannot read properties of null") ∧
    noFrameController.typeFrame "#btn" "hi" ≠
      Except.error JsErr.frameNotResolved := by
  decide

/-- C1 (amended): the frame-scoped operations perform no staleness or null
check.  With no frame focused, `typeFrame`, `clickFrame` and `selectFrame`
fail with a `TypeError` from dereferencing the null `_frame` — not with
`FrameNotResolvedError` — and with any stored frame, stale or not, they
never fail with `FrameNotResolvedError` and dispatch against the stored
frame. -/
theorem frameOps_typeError_and_act_on_stored_frame (c : SimpleController)
    (selector value text : String) :
    (c._frame = none →
      c.typeFrame selector text =
        Except.error (JsErr.typeError "Cannot read properties of null") ∧
      c.clickFrame selector =
        Except.error (JsErr.typeError "Cannot read properties of null") ∧
      c.selectFrame selector value =
        Except.error (JsErr.typeError "Cannot read properties of null")) ∧
    (∀ f, c._frame = some f →
      c.clickFrame selector ≠ Except.error JsErr.frameNotResolved ∧
      c.typeFrame selector text ≠ Except.error JsErr.frameNotResolved ∧
      c.selectFrame selector value ≠ Except.error JsErr.frameNotResolved ∧
      (selector ∈ f.elements →
        c.clickFrame selector = Except.ok [Effect.clickOn f selector])) := by
  constructor
  · intro h
    simp [SimpleController.typeFrame, SimpleController.clickFrame,
      SimpleController.selectFrame, h]
  · intro f h
    by_cases hs : selector ∈ f.elements <;>
      simp [SimpleController.typeFrame, SimpleController.clickFrame,
        SimpleController.selectFrame, h, Frame.query, hs]

/-- Witness for C1's amended theorem at concrete inputs: the stale-frame
controller and the no-frame controller. -/
theorem frameOps_typeError_and_act_on_stored_frame_witness :
    staleController.clickFrame "#btn" ≠ Except.error JsErr.frameNotResolved ∧
    staleController.clickFrame "#btn" =
      Except.ok [Effect.clickOn oldFrame "#btn"] ∧
    noFrameController.typeFrame "#btn" "hi" =
      Except.error (JsErr.typeError "Cannot read properties of null") :=
  ⟨((frameOps_typeError_and_act_on_stored_frame staleController "#btn" "v"
      "hi").2 oldFrame rfl).1,
   ((frameOps_typeError_and_act_on_stored_frame staleController "#btn" "v"
      "hi").2 oldFrame rfl).2.2.2 (by decide),
   ((frameOps_typeError_and_act_on_stored_frame noFrameController "#btn" "v"
      "hi").1 rfl).1⟩

/-! ## Claim C6 -/

/-- C6 counterexample: on a page where `#gone` is absent for the full
timeout, `waitForSelector("#gone", false)` resolves to `undefined`, not to
`false`: the wrapper discards the boolean result of
`Functions.waitForSelector`. -/
theorem waitForSelector_cx :
    noFrameController.waitForSelector "#gone" false = Except.ok JsVal.undef ∧
    noFrameController.waitForSelector "#gone" false ≠
      Except.ok (JsVal.bool false) := by
  decide

/-- C6 (amended): for every selector absent for the full timeout,
`waitForSelector(selector, doThrow=false)` does not throw but resolves to
`undefined` — the boolean from `Functions.waitForSelector` is discarded —
and with `doThrow=true` it throws `ElementNotFoundError`. -/
theorem waitForSelector_absent (c : SimpleController) (p : Page)
    (selector : String) (hp : c._page = some p)
    (habs : selector ∉ p.elements) :
    c.waitForSelector selector false = Except.ok JsVal.undef ∧
    c.waitForSelector selector true = Except.error JsErr.elementNotFound := by
  simp [SimpleController.waitForSelector, Functions.waitForSelector, hp, habs]

/-- Witness for C6's amended theorem: the concrete controller whose page has
no elements, with the absent selector `#gone`. -/
theorem waitForSelector_absent_witness :
    noFrameController.waitForSelector "#gone" false = Except.ok JsVal.undef ∧
    noFrameController.waitForSelector "#gone" true =
      Except.error JsErr.elementNotFound :=
  waitForSelector_absent noFrameController navigatedPage "#gone" rfl
    (by decide)

/-! ## Claim C8 -/

/-- C8: with a live page, `focusFrame` never throws; it returns true iff a
frame whose URL starts with the given URL start exists in the page's frame
tree at call time; on true the frame found by the scan is stored as the
focused frame (and its URL does start with the given start); on false the
controller is unchanged. -/
theorem focusFrame_iff (c : SimpleController) (p : Page) (url : String)
    (hp : c._page = some p) :
    ∃ b c', c.focusFrame url = Except.ok (b, c') ∧
      (b = true ↔ ∃ f ∈ p.frames, url.isPrefixOf f.url) ∧
      (b = true → ∃ f, Functions.getFrame p url = some f ∧
        c'._frame = some f ∧ url.isPrefixOf f.url ∧ f ∈ p.frames) ∧
      (b = false → c' = c) := by
  cases hf : p.frames.find? (fun f => url.isPrefixOf f.url) with
  | some f =>
      have hget : Functions.getFrame p url = some f := hf
      have hfe : url.isPrefixOf f.url = true := by
        have h := List.find?_some hf
        simpa using h
      have hfm : f ∈ p.frames := List.mem_of_find?_eq_some hf
      refine ⟨true, { c with _frame := some f }, ?_, ?_, ?_, by simp⟩
      · simp [SimpleController.focusFrame, hp, hget]
      · simp only [true_iff]
        exact ⟨f, hfm, hfe⟩
      · intro _
        exact ⟨f, hget, rfl, hfe, hfm⟩
  | none =>
      have hget : Functions.getFrame p url = none := hf
      refine ⟨false, c, ?_, ?_, by simp, fun _ => rfl⟩
      · simp [SimpleController.focusFrame, hp, hget]
      · simp only [Bool.false_eq_true, false_iff]
        rintro ⟨f, hmem, hpre⟩
        have hnone := List.find?_eq_none.mp hf f hmem
        simp [hpre] at hnone

/-- Witness for C8: on the page whose frame tree holds the frame at
`https://captcha.example/challenge`, focusing by the URL start
`https://captcha.example` succeeds. -/
theorem focusFrame_iff_witness :
    ∃ b c', readyController.focusFrame "https://captcha.example" =
        Except.ok (b, c') ∧
      (b = true ↔ ∃ f ∈ framedPage.frames,
        ("https://captcha.example").isPrefixOf f.url) ∧
      (b = true → ∃ f, Functions.getFrame framedPage "https://captcha.example" =
        some f ∧ c'._frame = some f ∧
        ("https://captcha.example").isPrefixOf f.url ∧ f ∈ framedPage.frames) ∧
      (b = false → c' = readyController) :=
  focusFrame_iff readyController framedPage "https://captcha.example" rfl

/-! ## Claim C9 -/

/-- C9: `init` with a reachable driver that opened page `p` succeeds, and
the resulting controller has a non-null page handle (the newly opened page),
a null focused frame, and exactly one open page — the new page itself. -/
theorem init_ready_state (c : SimpleController) (p : Page)
    (execPath : String) :
    ∃ c', c.init (some p) execPath = Except.ok c' ∧
      c'._page = some p ∧ c'._page ≠ none ∧
      c'._frame = none ∧
      c'._pages = [p] ∧ c'._pages.length = 1 := by
  refine ⟨_, rfl, rfl, by simp, rfl, rfl, rfl⟩

/-! ## Claim C10 -/

/-- No single method invocation changes `_iframe`: the only field
assignments in the class touch `_identity`, `_endpoint`, `_page`, `_frame`,
`_pages` and `_browser`. -/
theorem step_preserves_iframe (c : SimpleController) (op : Op) :
    (c.step op)._iframe = c._iframe := by
  cases op <;> try rfl
  case init driver execPath => cases driver <;> rfl
  case focusFrame url =>
    simp only [SimpleController.step, SimpleController.focusFrame]
    cases c._page with
    | none => rfl
    | some p =>
        cases hf : Functions.getFrame p url <;> simp [hf]
  case focusFrameSelector selector =>
    simp only [SimpleController.step, SimpleController.focusFrameSelector]
    cases c._page with
    | none => rfl
    | some p =>
        by_cases hs : selector ∈ p.elements <;> simp [hs]

/-- Running any sequence of method invocations leaves `_iframe` as it was. -/
theorem run_preserves_iframe (ops : List Op) (c : SimpleController) :
    (c.run ops)._iframe = c._iframe := by
  induction ops generalizing c with
  | nil => rfl
  | cons op ops ih =>
      show ((c.step op).run ops)._iframe = c._iframe
      rw [ih (c.step op), step_preserves_iframe]

/-- C10: after any sequence of prior operations on a freshly constructed
controller, `solveRecaptcha` passes an undefined frame to the underlying
solver: the `_iframe` field it reads is assigned by no operation of the
class (`focusFrame` and `focusFrameSelector` assign `_frame`), so it still
holds its initial undefined value regardless of which frame was focused. -/
theorem solveRecaptcha_frame_always_undefined (identity : String)
    (endpoint : Option String) (ops : List Op) :
    ((SimpleController.new identity endpoint).run ops).solveRecaptchaFrameArg
      = none := by
  show ((SimpleController.new identity endpoint).run ops)._iframe = none
  rw [run_preserves_iframe]
  rfl

end HOSIT
